import Mathlib

/-!
Shallow embedding of `ip_refresh.py` (an IP-address fetch/refresh tool).

The program scrapes IPv4 addresses out of web pages with the regex

  \b(?:(?:25[0-5]|2[0-4][0-9]|[01]?[0-9][0-9]?)\.){3}(?:25[0-5]|2[0-4][0-9]|[01]?[0-9][0-9]?)\b

filters them through `ipaddress.IPv4Address` parsing and the `is_global`
classification of CPython's `ipaddress` module, unions the per-URL result
sets concurrently, and writes the sorted result to a file (after renaming
any existing output file to a `.bak` sibling).

Texts are modelled as `List Char`; machine integers do not occur (all the
arithmetic is small `Nat` arithmetic on octet values).  Fallible Python
operations are modelled with `Except`/`Option`; the filesystem is an
explicit association-list state.
-/

/-- Characters counted as word characters by the regex `\b` assertion
(Python `\w`, restricted here to its ASCII part `[a-zA-Z0-9_]`; the inputs
relevant to the claims are ASCII). -/
def isWordChar (c : Char) : Bool := c.isAlphanum || c == '_'

/-- Split a character list at every occurrence of `sep`, like Python's
`str.split(sep)` (so `"a..b"` gives three groups, one of them empty). -/
def splitOnCh (sep : Char) : List Char → List (List Char)
  | [] => [[]]
  | c :: rest =>
    if c = sep then [] :: splitOnCh sep rest
    else
      match splitOnCh sep rest with
      | [] => [[c]]
      | g :: gs => (c :: g) :: gs

/-- Decimal value of a digit string, as computed by Python's `int` on a
string of ASCII digits. -/
def digitsVal (cs : List Char) : Nat :=
  cs.foldl (fun a c => a * 10 + (c.toNat - 48)) 0

/-- One octet of a dotted-quad, parsed as `ipaddress.IPv4Address._parse_octet`
does: 1 to 3 ASCII digits, no leading zero (CPython >= 3.9.5), value at
most 255.  `none` models `AddressValueError`. -/
def parseOctet (cs : List Char) : Option Nat :=
  if cs.isEmpty then none
  else if !(cs.all Char.isDigit) then none
  else if 3 < cs.length then none
  else if 1 < cs.length ∧ cs.head? = some '0' then none
  else
    let v := digitsVal cs
    if 255 < v then none else some v

/-- The 32-bit value of a dotted-quad string, as `ipaddress.IPv4Address(ip)`
computes it: split on dots, require exactly four octets, pack big-endian.
`none` models `AddressValueError`. -/
def ipValue (ip : String) : Option Nat :=
  match (splitOnCh '.' ip.data).mapM parseOctet with
  | some [a, b, c, d] => some (((a * 256 + b) * 256 + c) * 256 + d)
  | _ => none

/-- The integer value of the IPv4 address `a.b.c.d`. -/
def mkIP (a b c d : Nat) : Nat := ((a * 256 + b) * 256 + c) * 256 + d

/-- Membership of the address value `n` in the network `base/p`
(CIDR prefix length `p`): the top `p` bits agree. -/
def inNet (n base p : Nat) : Bool :=
  n / 2 ^ (32 - p) == base / 2 ^ (32 - p)

/-- `IPv4Address.is_private` from CPython's `ipaddress` module: membership
in one of the `_private_networks`, minus the `_private_networks_exceptions`
(192.0.0.9/32 and 192.0.0.10/32).  Note the list does NOT contain the
multicast block 224.0.0.0/4. -/
def is_private (n : Nat) : Bool :=
  (inNet n (mkIP 0 0 0 0) 8 || inNet n (mkIP 10 0 0 0) 8 ||
   inNet n (mkIP 127 0 0 0) 8 || inNet n (mkIP 169 254 0 0) 16 ||
   inNet n (mkIP 172 16 0 0) 12 || inNet n (mkIP 192 0 0 0) 24 ||
   inNet n (mkIP 192 0 0 170) 31 || inNet n (mkIP 192 0 2 0) 24 ||
   inNet n (mkIP 192 168 0 0) 16 || inNet n (mkIP 198 18 0 0) 15 ||
   inNet n (mkIP 198 51 100 0) 24 || inNet n (mkIP 203 0 113 0) 24 ||
   inNet n (mkIP 240 0 0 0) 4 || inNet n (mkIP 255 255 255 255) 32) &&
  !(inNet n (mkIP 192 0 0 9) 32 || inNet n (mkIP 192 0 0 10) 32)

/-- `IPv4Address.is_global` from CPython's `ipaddress` module: not in the
shared-address block 100.64.0.0/10 and not `is_private`. -/
def is_global (n : Nat) : Bool :=
  !inNet n (mkIP 100 64 0 0) 10 && !is_private n

/-- `IPValidator.is_valid_ip`: `True` when `ipaddress.IPv4Address(ip)`
does not raise. -/
def is_valid_ip (ip : String) : Bool := (ipValue ip).isSome

/-- `IPValidator.is_public_ip`: `ip_obj.is_global` of the parsed address,
`False` when parsing raises. -/
def is_public_ip (ip : String) : Bool :=
  match ipValue ip with
  | some n => is_global n
  | none => false

/-- Candidate matches of the octet sub-pattern `25[0-5]|2[0-4][0-9]|[01]?[0-9][0-9]?`
at the head of `s`, as (matched, rest) pairs in the order a backtracking
regex engine tries them: alternatives left to right, `?` greedy. -/
def octetCands (s : List Char) : List (List Char × List Char) :=
  (match s with
   | '2' :: '5' :: c :: rest =>
     if '0' ≤ c ∧ c ≤ '5' then [(['2', '5', c], rest)] else []
   | _ => []) ++
  (match s with
   | '2' :: c2 :: c3 :: rest =>
     if ('0' ≤ c2 ∧ c2 ≤ '4') ∧ c3.isDigit then [(['2', c2, c3], rest)] else []
   | _ => []) ++
  (match s with
   | c1 :: c2 :: c3 :: rest =>
     if (c1 = '0' ∨ c1 = '1') ∧ c2.isDigit ∧ c3.isDigit then [([c1, c2, c3], rest)] else []
   | _ => []) ++
  (match s with
   | c1 :: c2 :: rest =>
     if (c1 = '0' ∨ c1 = '1') ∧ c2.isDigit then [([c1, c2], rest)] else []
   | _ => []) ++
  (match s with
   | c1 :: c2 :: rest =>
     if c1.isDigit ∧ c2.isDigit then [([c1, c2], rest)] else []
   | _ => []) ++
  (match s with
   | c1 :: rest => if c1.isDigit then [([c1], rest)] else []
   | _ => [])

/-- First successful application of `f` along a list (the backtracking
search order of the regex engine). -/
def firstSome {α β : Type} (f : α → Option β) : List α → Option β
  | [] => none
  | a :: as =>
    match f a with
    | some b => some b
    | none => firstSome f as

/-- The trailing `\b` of `IP_PATTERN`: holds after a digit when the rest of
the text is empty or starts with a non-word character. -/
def endBoundary (s : List Char) : Bool :=
  match s with
  | [] => true
  | c :: _ => !isWordChar c

/-- Attempt to match `(octet \.){3} octet \b` at the head of `s`, returning
the matched characters and the remaining text.  Backtracks through the
octet alternatives exactly like the regex engine. -/
def matchIP (s : List Char) : Option (List Char × List Char) :=
  firstSome (fun p1 =>
    match p1.2 with
    | '.' :: r1 =>
      firstSome (fun p2 =>
        match p2.2 with
        | '.' :: r2 =>
          firstSome (fun p3 =>
            match p3.2 with
            | '.' :: r3 =>
              firstSome (fun p4 =>
                if endBoundary p4.2 then
                  some (p1.1 ++ '.' :: (p2.1 ++ '.' :: (p3.1 ++ '.' :: p4.1)), p4.2)
                else none) (octetCands r3)
            | _ => none) (octetCands r2)
        | _ => none) (octetCands r1)
    | _ => none) (octetCands s)

/-- Scanner of `re.findall` for `IP_PATTERN`: at every position where the
leading `\b` holds (word-ness differs between the previous character and
the current one; start of text counts as non-word), attempt a match;
on success emit it and resume after it (non-overlapping matches), else
advance one character.  After a match the previous character is the final
digit of the match, hence a word character.  `fuel` only drives
termination and is instantiated with the text length plus one. -/
def findallIP : Nat → Bool → List Char → List (List Char)
  | 0, _, _ => []
  | _ + 1, _, [] => []
  | fuel + 1, prevWord, c :: rest =>
    if prevWord != isWordChar c then
      match matchIP (c :: rest) with
      | some (m, r) => m :: findallIP fuel true r
      | none => findallIP fuel (isWordChar c) rest
    else findallIP fuel (isWordChar c) rest

/-- `IPValidator.IP_PATTERN.findall(text)`. -/
def IP_PATTERN_findall (text : String) : List String :=
  (findallIP (text.data.length + 1) false text.data).map (fun cs => ⟨cs⟩)

/-- `IPValidator.extract_ips_from_text`: the set of regex matches that pass
both `is_valid_ip` and `is_public_ip`. -/
def extract_ips_from_text (text : String) : Finset String :=
  ((IP_PATTERN_findall text).filter (fun ip => is_valid_ip ip && is_public_ip ip)).toFinset

/-- Numeric sort key of `IPFileManager.save_ips`:
`tuple(map(int, ip.split('.')))`.  (Python's `int` raises on non-digit
groups; the sets saved by the program contain only validated dotted-decimal
addresses, on which `digitsVal` agrees with `int`.) -/
def ipSortKey (ip : String) : List Nat :=
  (splitOnCh '.' ip.data).map digitsVal

/-- Lexicographic comparison of Python tuples of integers (a shorter tuple
precedes any extension of it). -/
def keyLE : List Nat → List Nat → Bool
  | [], _ => true
  | _ :: _, [] => false
  | a :: as, b :: bs =>
    if a < b then true
    else if b < a then false
    else keyLE as bs

/-- The sort order used by `save_ips`: at-most by the 4-tuple of octet
integers. -/
def ipLe (a b : String) : Prop := keyLE (ipSortKey a) (ipSortKey b) = true

instance : DecidableRel ipLe := fun a b =>
  inferInstanceAs (Decidable (keyLE (ipSortKey a) (ipSortKey b) = true))

/-- Python's `sorted` is a stable sort; a stable sort's output is uniquely
determined by the key order and the input order, so the stable
`insertionSort` computes the same list `sorted(ips, key=...)` returns. -/
def sortIPList (l : List String) : List String := List.insertionSort ipLe l

/-- The file body written by `save_ips`: each address followed by a newline
(`f.write(f"{ip}\n")` per address, including the last). -/
def linesOut (l : List String) : String :=
  l.foldl (fun acc ip => acc ++ ip ++ "\n") ""

/-- A fixed enumeration of a Python set of strings (set iteration order is
arbitrary; any enumeration gives the same stable-sort output because the
numeric keys of distinct validated addresses are distinct). -/
def enumSet (s : Finset String) : List String := s.sort (· ≤ ·)

/-- Filesystem state: file contents and the set of created directories,
both as association data. -/
structure FileSystem where
  files : List (String × String)
  dirs : List String
deriving DecidableEq

/-- Content of the file at `p`, when it exists. -/
def FileSystem.read (fs : FileSystem) (p : String) : Option String :=
  (fs.files.find? (fun kv => kv.1 == p)).map (fun kv => kv.2)

/-- Create or overwrite the file at `p` with content `c`. -/
def FileSystem.write (fs : FileSystem) (p c : String) : FileSystem :=
  ⟨(p, c) :: fs.files.filter (fun kv => kv.1 != p), fs.dirs⟩

/-- Delete the file at `p`. -/
def FileSystem.remove (fs : FileSystem) (p : String) : FileSystem :=
  ⟨fs.files.filter (fun kv => kv.1 != p), fs.dirs⟩

/-- `Path.mkdir(parents=True, exist_ok=True)` on directory `d`. -/
def FileSystem.mkdirp (fs : FileSystem) (d : String) : FileSystem :=
  if d ∈ fs.dirs then fs else ⟨fs.files, d :: fs.dirs⟩

/-- `Path(p).parent` as a string (the components before the last slash,
or `.` when there is no slash). -/
def dirname (p : String) : String :=
  let comps := splitOnCh '/' p.data
  if comps.length ≤ 1 then "." else ⟨(comps.dropLast.intersperse ['/']).flatten⟩

/-- `Path(p).with_suffix('.bak')`: drop the extension of the last path
component (a trailing `.ext` with a nonempty stem) and append `.bak`. -/
def withSuffixBak (p : String) : String :=
  let comps := splitOnCh '/' p.data
  let last := comps.getLastD []
  let stem :=
    match (last.reverse.dropWhile (fun c => c != '.')) with
    | '.' :: rest => if rest.isEmpty then last else rest.reverse
    | _ => last
  ⟨((comps.dropLast ++ [stem ++ ".bak".data]).intersperse ['/']).flatten⟩

/-- `IPFileManager.backup_existing_file`: when the output file exists,
rename it to the `.bak` sibling (replacing any prior backup) and return
the backup path; return `None` when the file is absent or the rename
raises `OSError` (`renameOk = false`); an `OSError` is caught and logged,
never propagated. -/
def backup_existing_file (fs : FileSystem) (out : String) (renameOk : Bool) :
    Option String × FileSystem :=
  match fs.read out with
  | some content =>
    if renameOk then
      let bak := withSuffixBak out
      (some bak, (fs.remove out).write bak content)
    else (none, fs)
  | none => (none, fs)

/-- `IPFileManager.save_ips`: refuse an empty set before touching the
filesystem; otherwise sort numerically, create the parent directory, and
write one address per line.  `writeOk = false` models an `OSError` during
the write, which is caught and turned into a `False` return (the partial
state of the output file on that path is not inspected by any caller). -/
def save_ips (fs : FileSystem) (out : String) (ips : Finset String) (writeOk : Bool) :
    Bool × FileSystem :=
  if ips = ∅ then (false, fs)
  else
    let sorted := sortIPList (enumSet ips)
    let fs1 := fs.mkdirp (dirname out)
    if writeOk then (true, fs1.write out (linesOut sorted))
    else (false, fs1)

/-- Outcome of the HTTP GET performed by `IPFetcher.fetch_ips_from_url`,
by the `except` clause that would catch it: a 2xx body, or one of
`Timeout`, `ConnectionError`, `HTTPError` (after `raise_for_status`),
another `RequestException`, or any other `Exception`. -/
inductive HttpResult where
  | success (body : String)
  | timeout
  | connError
  | httpError (status : Nat)
  | reqError
  | otherError
deriving DecidableEq

deriving instance DecidableEq for Except

/-- `IPFetcher.fetch_ips_from_url`: on a 2xx response, extract addresses
from the body; every failure category is caught inside the function and
degrades to the empty set (nothing propagates to the caller). -/
def fetch_ips_from_url (r : HttpResult) : Finset String :=
  match r with
  | HttpResult.success body => extract_ips_from_text body
  | _ => ∅

/-- The accumulator loop of `IPFetcher.fetch_all_ips`: starting from the
empty set, union in each completed fetch's result (`all_ips.update(ips)`). -/
def aggregate (fetchOne : String → Finset String) (urls : List String) : Finset String :=
  urls.foldl (fun acc u => acc ∪ fetchOne u) ∅

/-- `IPFetcher.fetch_all_ips`: runs the fetches on a
`ThreadPoolExecutor(max_workers=min(max_workers, len(urls)))` and unions
the results in completion order.  `ThreadPoolExecutor` raises
`ValueError` when its worker count is not positive, and that exception
propagates out of `fetch_all_ips` (the internal `try` only guards
`future.result()`). -/
def fetch_all_ips (urls : List String) (max_workers : Nat)
    (fetchOne : String → Finset String) : Except String (Finset String) :=
  if min max_workers urls.length = 0 then
    Except.error "ValueError: max_workers must be greater than 0"
  else
    Except.ok (aggregate fetchOne urls)

/-- A JSON-representable configuration value (the shapes used by
`default_config`: strings, integers, lists of strings). -/
inductive PyVal where
  | vStr (s : String)
  | vNat (n : Nat)
  | vStrList (l : List String)
deriving DecidableEq

/-- `IPRefreshConfig.default_config`. -/
def default_config : List (String × PyVal) :=
  [("urls", PyVal.vStrList
      ["https://ip.164746.xyz",
       "https://cf.090227.xyz",
       "https://stock.hostmonit.com/CloudFlareYes",
       "https://www.wetest.vip/page/cloudflare/address_v4.html",
       "https://api.uouin.com/cloudflare.html"]),
   ("output_file", PyVal.vStr "ip.txt"),
   ("timeout", PyVal.vNat 10),
   ("max_workers", PyVal.vNat 4),
   ("log_level", PyVal.vStr "INFO"),
   ("user_agent", PyVal.vStr "Mozilla/5.0 (Windows NT 10.0; Win64; x64) AppleWebKit/537.36")]

/-- Lookup in an association-list dictionary. -/
def alookup (l : List (String × PyVal)) (k : String) : Option PyVal :=
  (l.find? (fun kv => kv.1 == k)).map (fun kv => kv.2)

/-- Python's `{**a, **b}`: the keys of `a` in order with values overridden
by `b`, then the keys of `b` not in `a`. -/
def dictMerge (a b : List (String × PyVal)) : List (String × PyVal) :=
  (a.map (fun kv => (kv.1, (alookup b kv.1).getD kv.2))) ++
  b.filter (fun kv => (alookup a kv.1).isNone)

/-- State of the configuration file as `_load_config` can encounter it:
absent; unreadable (`open`/read raises `IOError`); not decodable as JSON
(`json.load` raises `JSONDecodeError`); valid JSON that is not an object;
or a JSON object with the given entries. -/
inductive ConfigSource where
  | absent
  | ioError
  | syntaxError
  | jsonNonObject
  | jsonObject (user : List (String × PyVal))
deriving DecidableEq

/-- `IPRefreshConfig._load_config`.  The `except` clause catches only
`json.JSONDecodeError` and `IOError`; when `json.load` returns a non-dict
value, the merge `{**self.default_config, **config}` raises `TypeError`,
which escapes the function (modelled as `Except.error`). -/
def _load_config (src : ConfigSource) : Except String (List (String × PyVal)) :=
  match src with
  | ConfigSource.absent => Except.ok default_config
  | ConfigSource.ioError => Except.ok default_config
  | ConfigSource.syntaxError => Except.ok default_config
  | ConfigSource.jsonNonObject => Except.error "TypeError: object is not a mapping"
  | ConfigSource.jsonObject user => Except.ok (dictMerge default_config user)

/-- Environment of one `IPRefreshTool.run` invocation: the filesystem, the
configured URLs, worker bound and output path, the HTTP outcome per URL,
and whether the backup rename and the output write succeed. -/
structure RunEnv where
  fs : FileSystem
  urls : List String
  max_workers : Nat
  output_file : String
  http : String → HttpResult
  renameOk : Bool
  writeOk : Bool

/-- The per-URL fetch function `run` hands to the aggregator. -/
def fetchOneFn (http : String → HttpResult) : String → Finset String :=
  fun u => fetch_ips_from_url (http u)

/-- How one `IPRefreshTool.run` terminated: via the catch-all `except`
(returning `False`), via the empty-result check (returning `False`
without calling `save_ips`), or via `save_ips` (returning its flag). -/
inductive RunOutcome where
  | exceptionCaught
  | emptyResult
  | saved (ok : Bool)
deriving DecidableEq

/-- `IPRefreshTool.run`: backup (best effort), fetch all, fail on an empty
aggregate without saving, otherwise save and return the save flag.  Any
exception out of the fetch stage is caught by the surrounding
`except Exception` and turned into a `False` return. -/
def IPRefreshTool_run (env : RunEnv) : RunOutcome × FileSystem :=
  let fs1 := (backup_existing_file env.fs env.output_file env.renameOk).2
  match fetch_all_ips env.urls env.max_workers (fetchOneFn env.http) with
  | Except.error _ => (RunOutcome.exceptionCaught, fs1)
  | Except.ok s =>
    if s = ∅ then (RunOutcome.emptyResult, fs1)
    else
      let r := save_ips fs1 env.output_file s env.writeOk
      (RunOutcome.saved r.1, r.2)

/-- The boolean `run` returns for each outcome. -/
def runSuccess : RunOutcome → Bool
  | RunOutcome.saved ok => ok
  | _ => false

/-- Whether `save_ips` was called on the way to the outcome. -/
def saveCalled : RunOutcome → Bool
  | RunOutcome.saved _ => true
  | _ => false

/-- `main`: `exit(0 if success else 1)` on the value returned by `run`. -/
def mainExit (o : RunOutcome) : Nat := if runSuccess o then 0 else 1

/-- The routability guarantee that `extract_ips_from_text` actually
provides for every member of its result: a valid parse whose value is
`is_global`, hence outside 10.0.0.0/8, 172.16.0.0/12, 192.168.0.0/16,
127.0.0.0/8 and 169.254.0.0/16, and different from 0.0.0.0. -/
def RoutableSpec (ip : String) : Prop :=
  is_valid_ip ip = true ∧
  ∃ n, ipValue ip = some n ∧ is_global n = true ∧
    inNet n (mkIP 10 0 0 0) 8 = false ∧ inNet n (mkIP 172 16 0 0) 12 = false ∧
    inNet n (mkIP 192 168 0 0) 16 = false ∧ inNet n (mkIP 127 0 0 0) 8 = false ∧
    inNet n (mkIP 169 254 0 0) 16 = false ∧ n ≠ mkIP 0 0 0 0

/-- What `fetch_all_ips` guarantees for a workable configuration: the
union of the per-source sets, invariance under completion order, and the
empty set as the ordinary all-sources-failed value. -/
def AggSpec (urls : List String) (mw : Nat) (f : String → Finset String) : Prop :=
  fetch_all_ips urls mw f = Except.ok (aggregate f urls) ∧
  (∀ l : List String, l.Perm urls → aggregate f l = aggregate f urls) ∧
  ((∀ u ∈ urls, f u = ∅) → aggregate f urls = ∅)

/-- What `save_ips` guarantees for a non-empty set: the returned flag is
the write outcome, a successful write stores one address per line in
key-sorted order with a trailing newline on every line, and the sorted
list enumerates exactly the given set. -/
def SaveSpec (fs : FileSystem) (out : String) (ips : Finset String) (w : Bool) : Prop :=
  (save_ips fs out ips w).1 = w ∧
  (w = true →
    (save_ips fs out ips w).2.read out = some (linesOut (sortIPList (enumSet ips)))) ∧
  List.Sorted ipLe (sortIPList (enumSet ips)) ∧
  (∀ x, x ∈ sortIPList (enumSet ips) ↔ x ∈ ips)

/-- An empty filesystem. -/
def fs0 : FileSystem := ⟨[], []⟩

/-- A filesystem holding one prior output file. -/
def fs9 : FileSystem := ⟨[("ip.txt", "1.2.3.4\n")], []⟩

/-- A concrete healthy run environment: one source whose body holds one
public address, working rename and write. -/
def wEnv : RunEnv :=
  ⟨fs0, ["src"], 4, "ip.txt", fun _ => HttpResult.success "8.8.8.8", true, true⟩

/-- `wEnv` with an empty source list. -/
def wEnvNoUrls : RunEnv := { wEnv with urls := [] }

/-- A three-address set for the sort example. -/
def S0 : Finset String := {"10.1.1.1", "2.2.2.2", "2.2.2.10"}

lemma keyLE_total : ∀ x y : List Nat, keyLE x y = true ∨ keyLE y x = true
  | [], [] => Or.inl rfl
  | [], _ :: _ => Or.inl rfl
  | _ :: _, [] => Or.inr rfl
  | a :: as, b :: bs => by
    rcases Nat.lt_trichotomy a b with h | h | h
    · left; simp [keyLE, h]
    · subst h
      rcases keyLE_total as bs with ih | ih
      · left; simpa [keyLE] using ih
      · right; simpa [keyLE] using ih
    · right; simp [keyLE, h]

lemma keyLE_trans : ∀ x y z : List Nat,
    keyLE x y = true → keyLE y z = true → keyLE x z = true
  | [], _, _ => by intro _ _; rfl
  | _ :: _, [], _ => by intro h _; simp [keyLE] at h
  | _ :: _, _ :: _, [] => by intro _ h; simp [keyLE] at h
  | a :: as, b :: bs, c :: cs => by
    intro h1 h2
    simp only [keyLE] at h1 h2 ⊢
    split at h1
    · rename_i hab
      split at h2
      · rename_i hbc; simp [Nat.lt_trans hab hbc]
      · split at h2
        · exact absurd h2 (by simp)
        · rename_i hcb hbc
          have hbc' : b = c := Nat.le_antisymm (Nat.le_of_not_lt hbc) (Nat.le_of_not_lt hcb)
          subst hbc'; simp [hab]
    · split at h1
      · exact absurd h1 (by simp)
      · rename_i hba hab
        have hab' : a = b := Nat.le_antisymm (Nat.le_of_not_lt hab) (Nat.le_of_not_lt hba)
        subst hab'
        split at h2
        · rename_i hac; simp [hac]
        · rename_i hac
          split at h2
          · exact absurd h2 (by simp)
          · rename_i hca
            simp only [if_neg hac, if_neg hca]
            exact keyLE_trans as bs cs h1 h2

instance : IsTotal String ipLe :=
  ⟨fun a b => keyLE_total (ipSortKey a) (ipSortKey b)⟩

instance : IsTrans String ipLe :=
  ⟨fun a b c h1 h2 => keyLE_trans (ipSortKey a) (ipSortKey b) (ipSortKey c) h1 h2⟩

lemma save_ips_fst (fs : FileSystem) (out : String) (ips : Finset String) (w : Bool) :
    (save_ips fs out ips w).1 = if ips = ∅ then false else w := by
  unfold save_ips
  split
  · rfl
  · cases w <;> simp

lemma read_write_self (fs : FileSystem) (p c : String) :
    (fs.write p c).read p = some c := by
  simp [FileSystem.read, FileSystem.write, List.find?]

lemma foldl_union_perm (f : String → Finset String) :
    ∀ {l₁ l₂ : List String}, l₁.Perm l₂ → ∀ init : Finset String,
      l₁.foldl (fun acc u => acc ∪ f u) init = l₂.foldl (fun acc u => acc ∪ f u) init := by
  intro l₁ l₂ p
  induction p with
  | nil => intro _; rfl
  | cons x _ ih => intro init; simp only [List.foldl_cons]; exact ih _
  | swap x y l => intro init; simp only [List.foldl_cons, Finset.union_right_comm]
  | trans _ _ ih₁ ih₂ => intro init; exact (ih₁ init).trans (ih₂ init)

lemma foldl_union_empty (f : String → Finset String) :
    ∀ l : List String, (∀ u ∈ l, f u = ∅) → ∀ init : Finset String,
      l.foldl (fun acc u => acc ∪ f u) init = init := by
  intro l
  induction l with
  | nil => intro _ _; rfl
  | cons x xs ih =>
    intro h init
    simp only [List.foldl_cons]
    rw [h x (by simp), Finset.union_empty]
    exact ih (fun u hu => h u (by simp [hu])) init

lemma is_global_ranges (n : Nat) (h : is_global n = true) :
    inNet n (mkIP 10 0 0 0) 8 = false ∧ inNet n (mkIP 172 16 0 0) 12 = false ∧
    inNet n (mkIP 192 168 0 0) 16 = false ∧ inNet n (mkIP 127 0 0 0) 8 = false ∧
    inNet n (mkIP 169 254 0 0) 16 = false ∧ n ≠ mkIP 0 0 0 0 := by
  simp only [is_global, is_private, inNet, mkIP, Bool.and_eq_true, Bool.not_eq_true',
    Bool.and_eq_false_iff, Bool.or_eq_false_iff, Bool.or_eq_true, beq_iff_eq,
    beq_eq_false_iff_ne, ne_eq, Bool.not_eq_false] at h ⊢
  norm_num at h ⊢
  omega

/-- C1 (amended): every address returned by `extract_ips_from_text` parses
as a valid IPv4 address and is `is_global`, hence lies outside 10.0.0.0/8,
172.16.0.0/12, 192.168.0.0/16, 127.0.0.0/8 and 169.254.0.0/16 and is not
0.0.0.0.  (The claim's further exclusion of 224.0.0.0/4 does not hold:
CPython's `is_global` does not exclude the multicast block.) -/
theorem extract_only_routable_amended (text ip : String)
    (h : ip ∈ extract_ips_from_text text) : RoutableSpec ip := by
  unfold extract_ips_from_text at h
  rw [List.mem_toFinset, List.mem_filter] at h
  obtain ⟨-, hf⟩ := h
  rw [Bool.and_eq_true] at hf
  obtain ⟨hv, hp⟩ := hf
  refine ⟨hv, ?_⟩
  unfold is_public_ip at hp
  cases hvv : ipValue ip with
  | none => rw [hvv] at hp; exact absurd hp (by simp)
  | some n =>
    rw [hvv] at hp
    obtain ⟨h1, h2, h3, h4, h5, h6⟩ := is_global_ranges n hp
    exact ⟨n, rfl, hp, h1, h2, h3, h4, h5, h6⟩

/-- C1 (counterexample to the claim as stated): the multicast address
225.1.2.3 lies in 224.0.0.0/4 and yet is returned by
`extract_ips_from_text`. -/
theorem extract_multicast_counterexample :
    "225.1.2.3" ∈ extract_ips_from_text "225.1.2.3" ∧
    ipValue "225.1.2.3" = some (mkIP 225 1 2 3) ∧
    inNet (mkIP 225 1 2 3) (mkIP 224 0 0 0) 4 = true := by decide

/-- C1 witness: 8.8.8.8 is extracted from a text and satisfies the
routability guarantee. -/
theorem extract_only_routable_witness :
    "8.8.8.8" ∈ extract_ips_from_text "8.8.8.8" ∧ RoutableSpec "8.8.8.8" :=
  ⟨by decide, extract_only_routable_amended "8.8.8.8" "8.8.8.8" (by decide)⟩

/-- C2 (counterexample to the claim as stated): the sub-span "5.6.7.8" of
the numeric run "1234.5.6.7.8" IS extracted, because the dot before the
5 satisfies the regex's word-boundary assertion. -/
theorem embedded_run_counterexample :
    "5.6.7.8" ∈ extract_ips_from_text "1234.5.6.7.8" := by decide

/-- C2 (amended): on the text "1234.5.6.7.8" no dotted group whose first
octet is embedded in the longer digit run is extracted (in particular
neither "1234.5.6.7" nor "234.5.6.7"), but the trailing span "5.6.7.8"
that starts at the dot boundary is: the extraction result is exactly
the singleton set of "5.6.7.8". -/
theorem embedded_run_amended :
    extract_ips_from_text "1234.5.6.7.8" = {"5.6.7.8"} := by decide

/-- C3: a run whose aggregated set is empty returns failure through the
empty-result branch without calling `save_ips` and the process exits 1;
a run that fetches a non-empty set and writes successfully returns
success and the process exits 0. -/
theorem run_exit_behavior (env : RunEnv) :
    (fetch_all_ips env.urls env.max_workers (fetchOneFn env.http) = Except.ok ∅ →
      (IPRefreshTool_run env).1 = RunOutcome.emptyResult ∧
      saveCalled (IPRefreshTool_run env).1 = false ∧
      mainExit (IPRefreshTool_run env).1 = 1) ∧
    (∀ s : Finset String,
      fetch_all_ips env.urls env.max_workers (fetchOneFn env.http) = Except.ok s →
      s ≠ ∅ → env.writeOk = true →
      (IPRefreshTool_run env).1 = RunOutcome.saved true ∧
      mainExit (IPRefreshTool_run env).1 = 0) := by
  constructor
  · intro h
    simp [IPRefreshTool_run, h, saveCalled, mainExit, runSuccess]
  · intro s h hs hw
    simp [IPRefreshTool_run, h, hs, save_ips_fst, hw, mainExit, runSuccess]

/-- C3 witness: a concrete healthy run fetches one address, saves it and
exits 0. -/
theorem run_exit_behavior_witness :
    fetch_all_ips wEnv.urls wEnv.max_workers (fetchOneFn wEnv.http) =
      Except.ok {"8.8.8.8"} ∧
    ({"8.8.8.8"} : Finset String) ≠ ∅ ∧
    wEnv.writeOk = true ∧
    ((IPRefreshTool_run wEnv).1 = RunOutcome.saved true ∧
      mainExit (IPRefreshTool_run wEnv).1 = 0) :=
  ⟨by decide, by decide, rfl,
    (run_exit_behavior wEnv).2 {"8.8.8.8"} (by decide) (by decide) rfl⟩

/-- C4: `save_ips` on the empty set fails and returns the filesystem
unchanged: no file and no directory is created or modified. -/
theorem save_empty_noop (fs : FileSystem) (out : String) (w : Bool) :
    save_ips fs out ∅ w = (false, fs) := by
  simp [save_ips]

/-- C5: `fetch_ips_from_url` is total over every HTTP outcome: a 2xx
response yields exactly the validator's extraction of the body, and every
failure category yields the empty set (nothing propagates). -/
theorem fetch_never_raises (r : HttpResult) :
    (∀ body, r = HttpResult.success body →
      fetch_ips_from_url r = extract_ips_from_text body) ∧
    ((∀ body, r ≠ HttpResult.success body) → fetch_ips_from_url r = ∅) := by
  constructor
  · intro body h; subst h; rfl
  · intro h
    cases r
    case success body => exact absurd rfl (h body)
    all_goals rfl

/-- C5 witness: a timed-out fetch contributes the empty set. -/
theorem fetch_never_raises_witness :
    fetch_ips_from_url HttpResult.timeout = ∅ :=
  (fetch_never_raises HttpResult.timeout).2 (fun _ h => HttpResult.noConfusion h)

/-- C6: for a non-empty source list (and a positive worker bound, as the
configuration schema requires), `fetch_all_ips` returns the union of the
per-source sets; the union is invariant under the completion order of the
fetches, and it is the ordinary empty set when every source contributes
nothing. -/
theorem fetch_all_union_perm (urls : List String) (mw : Nat)
    (f : String → Finset String) (hne : urls ≠ []) (hmw : 0 < mw) :
    AggSpec urls mw f := by
  refine ⟨?_, ?_, ?_⟩
  · unfold fetch_all_ips
    rw [if_neg]
    intro hc
    rcases Nat.min_eq_zero_iff.mp hc with h | h
    · omega
    · exact hne (List.length_eq_zero.mp h)
  · intro l hp; exact foldl_union_perm f hp ∅
  · intro h; exact foldl_union_empty f urls h ∅

/-- C6 witness: two sources that both contribute nothing aggregate to the
empty set under the stated guarantees. -/
theorem fetch_all_union_perm_witness :
    (["a", "b"] ≠ ([] : List String)) ∧ 0 < 4 ∧
    AggSpec ["a", "b"] 4 (fun _ => (∅ : Finset String)) :=
  ⟨by decide, by decide,
    fetch_all_union_perm ["a", "b"] 4 (fun _ => ∅) (by decide) (by decide)⟩

/-- C7: `save_ips` on a non-empty set writes the addresses sorted
ascending by the 4-tuple of octet integers, one per line with a newline
after every address including the last, returns success exactly when the
write raised no I/O error, and in particular sorts
["10.1.1.1","2.2.2.2","2.2.2.10"] numerically, not lexically. -/
theorem save_sorted_newlines (fs : FileSystem) (out : String) (ips : Finset String)
    (w : Bool) (hne : ips ≠ ∅) :
    SaveSpec fs out ips w ∧
    sortIPList ["10.1.1.1", "2.2.2.2", "2.2.2.10"] =
      ["2.2.2.2", "2.2.2.10", "10.1.1.1"] := by
  refine ⟨⟨?_, ?_, ?_, ?_⟩, by decide⟩
  · rw [save_ips_fst, if_neg hne]
  · intro hw
    subst hw
    unfold save_ips
    rw [if_neg hne]
    simp [read_write_self]
  · exact List.sorted_insertionSort ipLe _
  · intro x
    unfold sortIPList
    rw [(List.perm_insertionSort ipLe (enumSet ips)).mem_iff]
    unfold enumSet
    exact Finset.mem_sort _

/-- C7 witness: the three-address example set is non-empty and saved
sorted. -/
theorem save_sorted_newlines_witness :
    S0 ≠ ∅ ∧
    (SaveSpec fs0 "ip.txt" S0 true ∧
      sortIPList ["10.1.1.1", "2.2.2.2", "2.2.2.10"] =
        ["2.2.2.2", "2.2.2.10", "10.1.1.1"]) :=
  ⟨by decide, save_sorted_newlines fs0 "ip.txt" S0 true (by decide)⟩

/-- C8 (counterexample to the claim as stated): a configuration file whose
content is valid JSON but not an object (for example the text `[1, 2, 3]`)
makes `_load_config` raise: the merge `{**default, **config}` raises
`TypeError`, which the `except (json.JSONDecodeError, IOError)` clause
does not catch. -/
theorem load_config_nonobject_raises :
    _load_config ConfigSource.jsonNonObject =
      Except.error "TypeError: object is not a mapping" := rfl

/-- C8 (amended): `_load_config` never raises and continues with defaults
when the file is absent, unreadable, or not decodable as JSON, and with
the merged dictionary when it holds a JSON object; only a valid-JSON
non-object value escapes as an exception. -/
theorem load_config_fallback (src : ConfigSource) :
    ((src = ConfigSource.absent ∨ src = ConfigSource.ioError ∨
        src = ConfigSource.syntaxError) →
      _load_config src = Except.ok default_config) ∧
    (∀ u, src = ConfigSource.jsonObject u →
      _load_config src = Except.ok (dictMerge default_config u)) := by
  constructor
  · rintro (rfl | rfl | rfl) <;> rfl
  · rintro u rfl; rfl

/-- C8 witness: an absent configuration file falls back to the defaults. -/
theorem load_config_fallback_witness :
    _load_config ConfigSource.absent = Except.ok default_config :=
  (load_config_fallback ConfigSource.absent).1 (Or.inl rfl)

/-- C9: `backup_existing_file` renames an existing output file to its
`.bak` sibling and returns that path; it returns nothing when the file is
absent or the rename fails; and the run outcome never depends on whether
the rename succeeded (the run proceeds to fetching regardless). -/
theorem backup_rename_semantics (fs : FileSystem) (out c : String)
    (env : RunEnv) (b₁ b₂ : Bool) :
    (fs.read out = some c →
      backup_existing_file fs out true =
        (some (withSuffixBak out), (fs.remove out).write (withSuffixBak out) c)) ∧
    (fs.read out = none → ∀ rOk, backup_existing_file fs out rOk = (none, fs)) ∧
    backup_existing_file fs out false = (none, fs) ∧
    (IPRefreshTool_run { env with renameOk := b₁ }).1 =
      (IPRefreshTool_run { env with renameOk := b₂ }).1 := by
  refine ⟨?_, ?_, ?_, ?_⟩
  · intro h; simp [backup_existing_file, h]
  · intro h rOk; simp [backup_existing_file, h]
  · unfold backup_existing_file; cases h : fs.read out <;> simp
  · unfold IPRefreshTool_run
    cases hf : fetch_all_ips env.urls env.max_workers (fetchOneFn env.http) with
    | error e => simp [hf]
    | ok s =>
      by_cases hs : s = ∅
      · simp [hf, hs]
      · simp [hf, hs, save_ips_fst]

/-- C9 witness: with a prior output file present, the backup renames it to
the `.bak` sibling and returns that path. -/
theorem backup_rename_semantics_witness :
    FileSystem.read fs9 "ip.txt" = some "1.2.3.4\n" ∧
    backup_existing_file fs9 "ip.txt" true =
      (some (withSuffixBak "ip.txt"),
        (fs9.remove "ip.txt").write (withSuffixBak "ip.txt") "1.2.3.4\n") :=
  ⟨rfl, (backup_rename_semantics fs9 "ip.txt" "1.2.3.4\n" wEnv true true).1 rfl⟩

/-- C10: with an empty source list `fetch_all_ips` raises (the worker pool
is built with `min(max_workers, 0) = 0` workers, which `ThreadPoolExecutor`
rejects with `ValueError`), so such a run fails through the orchestrator's
catch-all exception handler — not through the empty-result branch — and
exits 1. -/
theorem empty_urls_raises (mw : Nat) (f : String → Finset String) (env : RunEnv) :
    fetch_all_ips [] mw f =
      Except.error "ValueError: max_workers must be greater than 0" ∧
    (env.urls = [] →
      (IPRefreshTool_run env).1 = RunOutcome.exceptionCaught ∧
      (IPRefreshTool_run env).1 ≠ RunOutcome.emptyResult ∧
      mainExit (IPRefreshTool_run env).1 = 1) := by
  constructor
  · simp [fetch_all_ips]
  · intro h
    simp [IPRefreshTool_run, h, fetch_all_ips, mainExit, runSuccess]

/-- C10 witness: the concrete environment with no configured URLs ends in
the exception branch with exit code 1. -/
theorem empty_urls_raises_witness :
    wEnvNoUrls.urls = [] ∧
    ((IPRefreshTool_run wEnvNoUrls).1 = RunOutcome.exceptionCaught ∧
      (IPRefreshTool_run wEnvNoUrls).1 ≠ RunOutcome.emptyResult ∧
      mainExit (IPRefreshTool_run wEnvNoUrls).1 = 1) :=
  ⟨rfl, (empty_urls_raises 4 (fun _ => ∅) wEnvNoUrls).2 rfl⟩
